import Mathlib

/-!
Verification of the `ion` repository's API Gateway V2 authorizer core:
the request-time decision adapter (`apigatewayv2.authorizer` in
`src/sdk/js/src/aws/apigatewayv2.ts` and its two near-duplicates
`src/unnamed/part_000` / `src/unnamed/part_001`) and the provisioning-time
configurator (`ApiGatewayV2Authorizer` in
`src/platform/src/components/aws/apigatewayv2-authorizer.ts`).

Modelling conventions:
* TypeScript optional fields become `Option`; an absent object key is `none`.
* JavaScript object-spread semantics are translated explicitly: in
  `\x7b Version: "2012-10-17", ...policyDocument, Statement: [...] \x7d`
  a key present in `policyDocument` overrides the `Version` literal placed
  before the spread, while the `Statement` literal placed after the spread
  always wins.  Hence the output `Version` is
  `(policyDocument?.Version) ?? "2012-10-17"` and the output `Statement`
  is the synthesized list.
* The time-dependent defaults `new Date().toString()` and
  `Date.now().toString()` are abstracted as an explicit string argument
  holding the value that expression produced at call time (both renderings
  are non-empty strings; non-emptiness is carried as a hypothesis).
* The source's `VisibleError` class carries only a message; it is raised at
  two sites, configure-time validation (the spec's `ConfigurationError`)
  and descriptor-accessor misuse (the spec's `InvalidAccessError`).
* The external provisioning layer is modelled by a `ProvisionEnv` record
  supplying the opaque identifiers (function ARNs, authorizer id) it would
  assign, and by a trace of provisioning requests (`ProvisionAction`).
-/

namespace Ion

/-- One IAM policy statement as produced by the adapter
(`Action`/`Effect`/`Resource` string fields). -/
structure Stmt where
  Action : String
  Effect : String
  Resource : String
deriving DecidableEq, Repr

/-- Caller-supplied partial policy document (`policyDocument` of the
user handler's result): both keys may be absent. -/
structure PolicyDocumentIn where
  Version : Option String
  Statement : Option (List Stmt)
deriving DecidableEq, Repr

/-- The policy document of the wrapped handler's response: `Version` and
`Statement` are always present there. -/
structure PolicyDocumentOut where
  Version : String
  Statement : List Stmt
deriving DecidableEq, Repr

/-- The result the user handler returns in `src/sdk/js/src/aws/apigatewayv2.ts`
and `src/unnamed/part_001` (`AuthResult`): a required `authorized` flag plus
the optional `APIGatewayAuthorizerResult` fields the adapter reads.
`context` is an opaque passthrough value, modelled as a string. -/
structure AuthResult where
  authorized : Bool
  principalId : Option String
  context : Option String
  usageIdentifierKey : Option String
  policyDocument : Option PolicyDocumentIn
deriving DecidableEq, Repr

/-- The result the user handler returns in `src/unnamed/part_000`
(`AuthResult` there): identical except the flag is named `isAuthorized`. -/
structure IAMAuthResult where
  isAuthorized : Bool
  principalId : Option String
  context : Option String
  usageIdentifierKey : Option String
  policyDocument : Option PolicyDocumentIn
deriving DecidableEq, Repr

/-- The response of the wrapped handler (`APIGatewayAuthorizerResult`). -/
structure HandlerResponse where
  principalId : String
  policyDocument : PolicyDocumentOut
  context : Option String
  usageIdentifierKey : Option String
deriving DecidableEq, Repr

/-- The wrapped handler of `src/sdk/js/src/aws/apigatewayv2.ts`, applied to
the awaited user-handler result `res` and the inbound event's `methodArn`.
`newDateStr` is the string `new Date().toString()` produced at this call.
Destructuring default: `principalId = new Date().toString()` fires exactly
when the key is absent.  Both branches build
`\x7b Version: "2012-10-17", ...policyDocument, Statement: [mandatory,
...(policyDocument?.Statement ?? [])] \x7d`; by spread semantics the
caller's `Version` (when present) overrides the literal, and the
`Statement` literal after the spread overrides the caller's. -/
def sdkAuthorizer (newDateStr : String) (res : AuthResult)
    (methodArn : String) : HandlerResponse :=
  let principalId := res.principalId.getD newDateStr
  let outVersion := (res.policyDocument.bind PolicyDocumentIn.Version).getD "2012-10-17"
  let callerStmts := (res.policyDocument.bind PolicyDocumentIn.Statement).getD []
  if res.authorized = false then
    { principalId := principalId
      policyDocument :=
        { Version := outVersion
          Statement :=
            { Action := "execute-api:Invoke", Effect := "Deny",
              Resource := methodArn } :: callerStmts }
      context := res.context
      usageIdentifierKey := res.usageIdentifierKey }
  else
    { principalId := principalId
      policyDocument :=
        { Version := outVersion
          Statement :=
            { Action := "execute-api:Invoke", Effect := "Allow",
              Resource := methodArn } :: callerStmts }
      context := res.context
      usageIdentifierKey := res.usageIdentifierKey }

/-- The wrapped handler of `src/unnamed/part_001`: textually the same
pipeline as `sdkAuthorizer` except the destructuring default is
`Date.now().toString()`, abstracted as `dateNowStr`. -/
def part1Authorizer (dateNowStr : String) (res : AuthResult)
    (methodArn : String) : HandlerResponse :=
  let principalId := res.principalId.getD dateNowStr
  let outVersion := (res.policyDocument.bind PolicyDocumentIn.Version).getD "2012-10-17"
  let callerStmts := (res.policyDocument.bind PolicyDocumentIn.Statement).getD []
  if res.authorized = false then
    { principalId := principalId
      policyDocument :=
        { Version := outVersion
          Statement :=
            { Action := "execute-api:Invoke", Effect := "Deny",
              Resource := methodArn } :: callerStmts }
      context := res.context
      usageIdentifierKey := res.usageIdentifierKey }
  else
    { principalId := principalId
      policyDocument :=
        { Version := outVersion
          Statement :=
            { Action := "execute-api:Invoke", Effect := "Allow",
              Resource := methodArn } :: callerStmts }
      context := res.context
      usageIdentifierKey := res.usageIdentifierKey }

/-- The wrapped handler of `src/unnamed/part_000`: same pipeline, reading
the flag from the `isAuthorized` field, default `Date.now().toString()`. -/
def part0Authorizer (dateNowStr : String) (res : IAMAuthResult)
    (methodArn : String) : HandlerResponse :=
  let principalId := res.principalId.getD dateNowStr
  let outVersion := (res.policyDocument.bind PolicyDocumentIn.Version).getD "2012-10-17"
  let callerStmts := (res.policyDocument.bind PolicyDocumentIn.Statement).getD []
  if res.isAuthorized = false then
    { principalId := principalId
      policyDocument :=
        { Version := outVersion
          Statement :=
            { Action := "execute-api:Invoke", Effect := "Deny",
              Resource := methodArn } :: callerStmts }
      context := res.context
      usageIdentifierKey := res.usageIdentifierKey }
  else
    { principalId := principalId
      policyDocument :=
        { Version := outVersion
          Statement :=
            { Action := "execute-api:Invoke", Effect := "Allow",
              Resource := methodArn } :: callerStmts }
      context := res.context
      usageIdentifierKey := res.usageIdentifierKey }

/-- The caller-supplied statement list the adapter appends:
`policyDocument?.Statement ?? []`. -/
def callerStatements (res : AuthResult) : List Stmt :=
  (res.policyDocument.bind PolicyDocumentIn.Statement).getD []

/-- The synthesized mandatory statement for an event with the given
`methodArn` and decision flag. -/
def mandatoryStmt (authorized : Bool) (methodArn : String) : Stmt :=
  { Action := "execute-api:Invoke"
    Effect := if authorized then "Allow" else "Deny"
    Resource := methodArn }

/-- The `VisibleError` of `src/platform/src/error.ts` as used by the
authorizer component: an error carrying a message.  The spec's
`ConfigurationError` is this error raised by `validateSingleAuthorizer`
or `getType`; the spec's `InvalidAccessError` is this error raised by the
`nodes` accessors. -/
structure VisibleError where
  message : String
deriving DecidableEq, Repr

/-- Opaque reference to the backing function's code/configuration
(`args.lambda`); the configurator only passes it on. -/
structure FunctionRef where
  ref : String
deriving DecidableEq, Repr

/-- The `jwt` mode configuration (`ApiGatewayV2AuthorizerArgs.jwt`). -/
structure JwtArgs where
  issuer : String
  audiences : List String
  identitySource : Option String
deriving DecidableEq, Repr

/-- The authorizer component's arguments relevant to the claims:
the declared authorizer name `args.name` and the two optional mode
branches `args.lambda` / `args.jwt`. -/
structure AuthorizerArgs where
  name : String
  lambda : Option FunctionRef
  jwt : Option JwtArgs
deriving DecidableEq, Repr

/-- The owning gateway reference (`args.api`): id, name, execution ARN. -/
structure ApiRef where
  id : String
  name : String
  executionArn : String
deriving DecidableEq, Repr

/-- Identifiers the external provisioning layer assigns to the resources
this component requests (function ARNs, the authorizer's id). -/
structure ProvisionEnv where
  fnArn : String
  fnInvokeArn : String
  authorizerId : String
deriving DecidableEq, Repr

/-- The backing function handle created by `createFunction`
(`Function.fromDefinition`), with the cosmetic description derived from
the owning gateway's name. -/
structure FunctionHandle where
  logicalName : String
  description : String
  arn : String
  invokeArn : String
deriving DecidableEq, Repr

/-- The `jwtConfiguration` block passed to the gateway authorizer. -/
structure JwtConfiguration where
  audiences : List String
  issuer : String
deriving DecidableEq, Repr

/-- The gateway authorizer registration built by `createAuthorizer`
(the `apigatewayv2.Authorizer` resource inputs plus its assigned id). -/
structure AuthorizerResource where
  id : String
  apiId : String
  authorizerType : String
  identitySources : Option (List String)
  jwtConfiguration : Option JwtConfiguration
  authorizerUri : Option String
  authorizerPayloadFormatVersion : String
deriving DecidableEq, Repr

/-- The invocation-permission grant built by `createPermission`
(the `lambda.Permission` resource inputs). -/
structure Permission where
  action : String
  functionArn : String
  principal : String
  sourceArn : String
deriving DecidableEq, Repr

/-- A provisioning request issued to the external resource layer, in
issue order. -/
inductive ProvisionAction where
  | provisionFunction (f : FunctionHandle)
  | registerAuthorizer (a : AuthorizerResource)
  | grantPermission (p : Permission)
deriving DecidableEq, Repr

/-- The component state after a successful construction: the authorizer
registration and the optional function/permission artifacts. -/
structure ApiGatewayV2Authorizer where
  authorizer : AuthorizerResource
  function : Option FunctionHandle
  permission : Option Permission
deriving DecidableEq, Repr

/-- `validateSingleAuthorizer` of
`src/platform/src/components/aws/apigatewayv2-authorizer.ts`:
`[args.lambda, args.jwt].filter(e => e)` must have length exactly one,
otherwise a `VisibleError` naming `args.name` is thrown. -/
def validateSingleAuthorizer (args : AuthorizerArgs) : Except VisibleError Unit :=
  let authorizers := [args.lambda.isSome, args.jwt.isSome].count true
  if authorizers = 0 then
    .error { message := "Please provide one of \"lambda\" or \"jwt\" for the "
        ++ args.name ++ " authorizer." }
  else if authorizers > 1 then
    .error { message := "Please provide only one of \"lambda\" or \"jwt\" for the "
        ++ args.name ++ " authorizer." }
  else
    .ok ()

/-- `getType`: `args.jwt` present gives "JWT", else `args.lambda` present
gives "REQUEST", else the same missing-mode `VisibleError`. -/
def getType (args : AuthorizerArgs) : Except VisibleError String :=
  match args.jwt with
  | some _ => .ok "JWT"
  | none =>
    match args.lambda with
    | some _ => .ok "REQUEST"
    | none =>
      .error { message := "Please provide one of \"lambda\" or \"jwt\" for the "
          ++ args.name ++ " authorizer." }

/-- `createFunction`: when `args.lambda` is present, request a backing
function named from the component name with a description derived from the
owning gateway's name; otherwise nothing. -/
def createFunction (cname : String) (args : AuthorizerArgs) (api : ApiRef)
    (env : ProvisionEnv) : Option FunctionHandle :=
  args.lambda.map fun _ =>
    { logicalName := cname ++ "LambdaAuthorizerFn"
      description := api.name ++ " authorizer function"
      arn := env.fnArn
      invokeArn := env.fnInvokeArn }

/-- `createAuthorizer`: the gateway authorizer registration, with
identity sources and JWT configuration only in jwt mode, the backing
function's invoke ARN as `authorizerUri` when present, and the fixed
payload format version "1.0". -/
def createAuthorizer (args : AuthorizerArgs) (api : ApiRef)
    (env : ProvisionEnv) (type : String) (fn : Option FunctionHandle) :
    AuthorizerResource :=
  { id := env.authorizerId
    apiId := api.id
    authorizerType := type
    identitySources := args.jwt.map fun jwt =>
      [jwt.identitySource.getD "$request.header.Authorization"]
    jwtConfiguration := args.jwt.map fun jwt =>
      { audiences := jwt.audiences, issuer := jwt.issuer }
    authorizerUri := fn.map FunctionHandle.invokeArn
    authorizerPayloadFormatVersion := "1.0" }

/-- `createPermission`: when a backing function exists, grant the gateway
service principal invocation on it, scoped by `sourceArn` to
`api.executionArn`/authorizers/`authorizer.id`. -/
def createPermission (api : ApiRef) (fn : Option FunctionHandle)
    (authorizer : AuthorizerResource) : Option Permission :=
  fn.map fun f =>
    { action := "lambda:InvokeFunction"
      functionArn := f.arn
      principal := "apigateway.amazonaws.com"
      sourceArn := api.executionArn ++ "/authorizers/" ++ authorizer.id }

/-- The `ApiGatewayV2Authorizer` constructor pipeline (`configure`):
validate, derive the type, then build the function, authorizer and
permission artifacts.  Returns the trace of provisioning requests issued,
in order, together with the component state or the thrown error; a throw
aborts the constructor, so nothing after it runs. -/
def configure (cname : String) (args : AuthorizerArgs) (api : ApiRef)
    (env : ProvisionEnv) :
    List ProvisionAction × Except VisibleError ApiGatewayV2Authorizer :=
  match validateSingleAuthorizer args with
  | .error e => ([], .error e)
  | .ok _ =>
    match getType args with
    | .error e => ([], .error e)
    | .ok type =>
      let fn := createFunction cname args api env
      let authorizer := createAuthorizer args api env type fn
      let permission := createPermission api fn authorizer
      ((fn.map ProvisionAction.provisionFunction).toList
          ++ [ProvisionAction.registerAuthorizer authorizer]
          ++ (permission.map ProvisionAction.grantPermission).toList,
        .ok { authorizer := authorizer, function := fn,
              permission := permission })

/-- The `nodes.function` accessor: throws a `VisibleError` when no backing
function exists (jwt mode). -/
def nodesFunction (self : ApiGatewayV2Authorizer) :
    Except VisibleError FunctionHandle :=
  match self.function with
  | none => .error { message :=
      "Cannot access `nodes.function` because the data source does not use a Lambda function." }
  | some f => .ok f

/-- The `nodes.permission` accessor: throws a `VisibleError` when no
permission exists (jwt mode). -/
def nodesPermission (self : ApiGatewayV2Authorizer) :
    Except VisibleError Permission :=
  match self.permission with
  | none => .error { message :=
      "Cannot access `nodes.permission` because the data source does not use a Lambda function." }
  | some p => .ok p

/-- A concrete owning gateway used to instantiate universally quantified
theorems. -/
def exApi : ApiRef :=
  { id := "api-1", name := "MyApi",
    executionArn := "arn:aws:execute-api:us-east-1:123:api-1" }

/-- Concrete provisioning-layer identifiers for instantiations. -/
def exEnv : ProvisionEnv :=
  { fnArn := "arn:fn", fnInvokeArn := "arn:fn:invoke",
    authorizerId := "auth-9" }

/-- A concrete jwt-mode argument record. -/
def exJwtArgs : AuthorizerArgs :=
  { name := "MyAuthorizer", lambda := none,
    jwt := some { issuer := "https://issuer", audiences := ["aud"],
                  identitySource := none } }

/-- A concrete lambda-mode argument record. -/
def exLambdaArgs : AuthorizerArgs :=
  { name := "MyAuthorizer", lambda := some { ref := "index.handler" },
    jwt := none }

/-- The component state `configure "Auth" exJwtArgs exApi exEnv` produces. -/
def exJwtD : ApiGatewayV2Authorizer :=
  { authorizer :=
      { id := "auth-9", apiId := "api-1", authorizerType := "JWT",
        identitySources := some ["$request.header.Authorization"],
        jwtConfiguration := some { audiences := ["aud"], issuer := "https://issuer" },
        authorizerUri := none, authorizerPayloadFormatVersion := "1.0" },
    function := none, permission := none }

/-- The component state `configure "Auth" exLambdaArgs exApi exEnv`
produces. -/
def exLambdaD : ApiGatewayV2Authorizer :=
  { authorizer :=
      { id := "auth-9", apiId := "api-1", authorizerType := "REQUEST",
        identitySources := none, jwtConfiguration := none,
        authorizerUri := some "arn:fn:invoke",
        authorizerPayloadFormatVersion := "1.0" },
    function := some
      { logicalName := "AuthLambdaAuthorizerFn",
        description := "MyApi authorizer function",
        arn := "arn:fn", invokeArn := "arn:fn:invoke" },
    permission := some
      { action := "lambda:InvokeFunction", functionArn := "arn:fn",
        principal := "apigateway.amazonaws.com",
        sourceArn := "arn:aws:execute-api:us-east-1:123:api-1/authorizers/auth-9" } }

end Ion

/-- C1: for every user-handler result and every method ARN, the response's
statement list of the wrapped handler (both in
`src/sdk/js/src/aws/apigatewayv2.ts` and in `src/unnamed/part_001`) is the
synthesized mandatory statement (Allow if authorized else Deny, action
"execute-api:Invoke", resource the event's methodArn) followed by the
caller-supplied statements in order, so its length is the caller list's
length plus one. -/
theorem Ion.c1_statement_order (ts ts' methodArn : String) (res : Ion.AuthResult) :
    (Ion.sdkAuthorizer ts res methodArn).policyDocument.Statement
        = Ion.mandatoryStmt res.authorized methodArn :: Ion.callerStatements res
    ∧ (Ion.part1Authorizer ts' res methodArn).policyDocument.Statement
        = Ion.mandatoryStmt res.authorized methodArn :: Ion.callerStatements res
    ∧ (Ion.sdkAuthorizer ts res methodArn).policyDocument.Statement.length
        = (Ion.callerStatements res).length + 1 := by
  cases res with
  | mk authorized principalId context usageIdentifierKey policyDocument =>
    cases authorized <;>
      simp [Ion.sdkAuthorizer, Ion.part1Authorizer, Ion.mandatoryStmt,
        Ion.callerStatements]

/-- C2 counterexample: the claim says the output `policyDocument.Version` is
always "2012-10-17" even when the caller supplies a different value; but a
caller-supplied `Version` is spread after the literal and overrides it, so
supplying Version "2008-10-17" yields output Version "2008-10-17". -/
theorem Ion.c2_counterexample :
    (Ion.sdkAuthorizer "Sat Oct 11 2026"
        { authorized := true, principalId := some "u1", context := none,
          usageIdentifierKey := none,
          policyDocument := some { Version := some "2008-10-17", Statement := none } }
        "arn:aws:execute-api:us-east-1:123:api/GET/items").policyDocument.Version
      ≠ "2012-10-17" := by
  decide

/-- C2 amended: the output `policyDocument.Version` is "2012-10-17" exactly
when the caller supplied no `Version` (no policy document, or one without a
`Version` key); when the caller supplied a `Version`, that value appears in
the output unchanged.  Formally the output `Version` is the caller's value
with "2012-10-17" as default. -/
theorem Ion.c2_version_default (ts methodArn : String) (res : Ion.AuthResult) :
    (Ion.sdkAuthorizer ts res methodArn).policyDocument.Version
      = (res.policyDocument.bind Ion.PolicyDocumentIn.Version).getD "2012-10-17" := by
  cases res with
  | mk authorized principalId context usageIdentifierKey policyDocument =>
    cases authorized <;> simp [Ion.sdkAuthorizer]

/-- C3 counterexample: the claim says the response's `principalId` is the
caller's value when that value is a non-empty string and otherwise a
non-empty synthesized string; but a caller-supplied empty string is not
`undefined`, so the destructuring default does not fire and the empty
string is returned verbatim, violating non-emptiness. -/
theorem Ion.c3_counterexample :
    (Ion.sdkAuthorizer "Sat Oct 11 2026"
        { authorized := false, principalId := some "", context := none,
          usageIdentifierKey := none, policyDocument := none }
        "arn:aws:execute-api:us-east-1:123:api/GET/items").principalId
      = "" := by
  decide

/-- C3 amended: the response's `principalId` equals the caller-supplied
value whenever one is supplied (including the empty string); when the field
is absent, it is the timestamp rendering `new Date().toString()`, which is
non-empty. -/
theorem Ion.c3_principal_default (ts methodArn : String) (res : Ion.AuthResult)
    (hts : ts ≠ "") :
    (Ion.sdkAuthorizer ts res methodArn).principalId = res.principalId.getD ts
    ∧ (res.principalId = none →
        (Ion.sdkAuthorizer ts res methodArn).principalId ≠ "") := by
  have h1 : (Ion.sdkAuthorizer ts res methodArn).principalId
      = res.principalId.getD ts := by
    cases res with
    | mk authorized principalId context usageIdentifierKey policyDocument =>
      cases authorized <;> simp [Ion.sdkAuthorizer]
  refine ⟨h1, fun h => ?_⟩
  rw [h1, h]
  simpa using hts

/-- C3 witness: the amended statement at a concrete timestamp and an input
without a `principalId`. -/
theorem Ion.c3_principal_default_witness :
    (Ion.sdkAuthorizer "Sat Oct 11 2026"
        { authorized := false, principalId := none, context := none,
          usageIdentifierKey := none, policyDocument := none }
        "arn").principalId
        = (Option.none.getD "Sat Oct 11 2026")
    ∧ ((none : Option String) = none →
        (Ion.sdkAuthorizer "Sat Oct 11 2026"
          { authorized := false, principalId := none, context := none,
            usageIdentifierKey := none, policyDocument := none }
          "arn").principalId ≠ "") :=
  Ion.c3_principal_default "Sat Oct 11 2026" "arn"
    { authorized := false, principalId := none, context := none,
      usageIdentifierKey := none, policyDocument := none }
    (by decide)

/-- C10: whenever the user handler supplies a `principalId`, the three
near-duplicate wrapped handlers agree: the SDK handler and the
`part_001` handler return identical responses regardless of their
(different) timestamp defaults, and the `part_000` handler returns the
same response when its `isAuthorized` flag carries the same boolean as
the others' `authorized` flag and the remaining fields coincide. -/
theorem Ion.c10_equivalence (ts1 ts2 ts3 methodArn p : String)
    (res : Ion.AuthResult) (h : res.principalId = some p) :
    Ion.sdkAuthorizer ts1 res methodArn = Ion.part1Authorizer ts2 res methodArn
    ∧ Ion.part1Authorizer ts2 res methodArn
        = Ion.part0Authorizer ts3
            { isAuthorized := res.authorized, principalId := res.principalId,
              context := res.context,
              usageIdentifierKey := res.usageIdentifierKey,
              policyDocument := res.policyDocument }
            methodArn := by
  cases res with
  | mk authorized principalId context usageIdentifierKey policyDocument =>
    simp only [Option.some.injEq] at h
    cases authorized <;>
      simp [Ion.sdkAuthorizer, Ion.part1Authorizer, Ion.part0Authorizer, h]

/-- C10 witness: the equivalence at a concrete input with a supplied
`principalId`. -/
theorem Ion.c10_equivalence_witness :
    Ion.sdkAuthorizer "Sat Oct 11 2026"
        { authorized := true, principalId := some "u1", context := some "c",
          usageIdentifierKey := none, policyDocument := none } "arn"
      = Ion.part1Authorizer "1760000000000"
        { authorized := true, principalId := some "u1", context := some "c",
          usageIdentifierKey := none, policyDocument := none } "arn"
    ∧ Ion.part1Authorizer "1760000000000"
        { authorized := true, principalId := some "u1", context := some "c",
          usageIdentifierKey := none, policyDocument := none } "arn"
      = Ion.part0Authorizer "1760000000001"
        { isAuthorized := true, principalId := some "u1", context := some "c",
          usageIdentifierKey := none, policyDocument := none } "arn" :=
  Ion.c10_equivalence "Sat Oct 11 2026" "1760000000000" "1760000000001"
    "arn" "u1"
    { authorized := true, principalId := some "u1", context := some "c",
      usageIdentifierKey := none, policyDocument := none }
    rfl

/-- C4: for every argument record, `configure` fails with the
configure-time `VisibleError` naming the authorizer by its declared name
when neither mode is populated, fails likewise when both are populated,
and succeeds when exactly one is populated. -/
theorem Ion.c4_mode_validation (cname : String) (args : Ion.AuthorizerArgs)
    (api : Ion.ApiRef) (env : Ion.ProvisionEnv) :
    (args.lambda = none → args.jwt = none →
      (Ion.configure cname args api env).2 = .error { message :=
        "Please provide one of \"lambda\" or \"jwt\" for the "
          ++ args.name ++ " authorizer." })
    ∧ (args.lambda.isSome → args.jwt.isSome →
      (Ion.configure cname args api env).2 = .error { message :=
        "Please provide only one of \"lambda\" or \"jwt\" for the "
          ++ args.name ++ " authorizer." })
    ∧ ([args.lambda.isSome, args.jwt.isSome].count true = 1 →
      ∃ d, (Ion.configure cname args api env).2 = .ok d) := by
  obtain ⟨name, lambda, jwt⟩ := args
  cases lambda <;> cases jwt <;>
    simp [Ion.configure, Ion.validateSingleAuthorizer, Ion.getType,
      List.count_cons]

/-- C4 witness: the empty-mode failure at a concrete argument record. -/
theorem Ion.c4_mode_validation_witness :
    (Ion.configure "Auth"
        { name := "MyAuthorizer", lambda := none, jwt := none }
        Ion.exApi Ion.exEnv).2
      = .error { message :=
        "Please provide one of \"lambda\" or \"jwt\" for the "
          ++ "MyAuthorizer" ++ " authorizer." } :=
  (Ion.c4_mode_validation "Auth"
    { name := "MyAuthorizer", lambda := none, jwt := none }
    Ion.exApi Ion.exEnv).1 rfl rfl

/-- C5: in every successfully configured component, the authorizer type is
"JWT" when the jwt branch is populated and "REQUEST" when the lambda
branch is populated, no other value occurs, the type is "REQUEST" exactly
when a backing function artifact is present, and the type is "JWT" exactly
when neither a backing function nor a permission artifact is present. -/
theorem Ion.c5_type_derivation (cname : String) (args : Ion.AuthorizerArgs)
    (api : Ion.ApiRef) (env : Ion.ProvisionEnv)
    (d : Ion.ApiGatewayV2Authorizer)
    (h : (Ion.configure cname args api env).2 = .ok d) :
    (d.authorizer.authorizerType = "JWT"
        ∨ d.authorizer.authorizerType = "REQUEST")
    ∧ (args.jwt.isSome → d.authorizer.authorizerType = "JWT")
    ∧ (args.lambda.isSome → d.authorizer.authorizerType = "REQUEST")
    ∧ (d.authorizer.authorizerType = "REQUEST" ↔ d.function.isSome)
    ∧ (d.authorizer.authorizerType = "JWT"
        ↔ (d.function = none ∧ d.permission = none)) := by
  obtain ⟨name, lambda, jwt⟩ := args
  cases lambda <;> cases jwt <;>
    simp [Ion.configure, Ion.validateSingleAuthorizer, Ion.getType,
      Ion.createFunction, Ion.createAuthorizer, Ion.createPermission,
      List.count_cons] at h <;>
    subst h <;> simp [Ion.createAuthorizer, Ion.createFunction,
      Ion.createPermission]

/-- C5 witness: the invariants at the concrete jwt-mode configuration. -/
theorem Ion.c5_type_derivation_witness :
    (Ion.exJwtD.authorizer.authorizerType = "JWT"
        ∨ Ion.exJwtD.authorizer.authorizerType = "REQUEST")
    ∧ (Ion.exJwtArgs.jwt.isSome →
        Ion.exJwtD.authorizer.authorizerType = "JWT")
    ∧ (Ion.exJwtArgs.lambda.isSome →
        Ion.exJwtD.authorizer.authorizerType = "REQUEST")
    ∧ (Ion.exJwtD.authorizer.authorizerType = "REQUEST"
        ↔ Ion.exJwtD.function.isSome)
    ∧ (Ion.exJwtD.authorizer.authorizerType = "JWT"
        ↔ (Ion.exJwtD.function = none ∧ Ion.exJwtD.permission = none)) :=
  Ion.c5_type_derivation "Auth" Ion.exJwtArgs Ion.exApi Ion.exEnv
    Ion.exJwtD rfl

/-- C6: for every successfully configured component whose lambda branch is
empty (jwt mode), reading `nodes.function` or `nodes.permission` fails
with the accessor `VisibleError` rather than returning a value. -/
theorem Ion.c6_jwt_accessors (cname : String) (args : Ion.AuthorizerArgs)
    (api : Ion.ApiRef) (env : Ion.ProvisionEnv)
    (d : Ion.ApiGatewayV2Authorizer)
    (hj : args.jwt.isSome) (hl : args.lambda = none)
    (h : (Ion.configure cname args api env).2 = .ok d) :
    Ion.nodesFunction d = .error { message :=
      "Cannot access `nodes.function` because the data source does not use a Lambda function." }
    ∧ Ion.nodesPermission d = .error { message :=
      "Cannot access `nodes.permission` because the data source does not use a Lambda function." } := by
  obtain ⟨name, lambda, jwt⟩ := args
  subst hl
  cases jwt with
  | none => simp at hj
  | some j =>
    simp [Ion.configure, Ion.validateSingleAuthorizer, Ion.getType,
      Ion.createFunction, Ion.createAuthorizer, Ion.createPermission,
      List.count_cons] at h
    subst h
    simp [Ion.nodesFunction, Ion.nodesPermission, Ion.createFunction,
      Ion.createPermission]

/-- C6 witness: the accessor failures at the concrete jwt-mode
configuration. -/
theorem Ion.c6_jwt_accessors_witness :
    Ion.nodesFunction Ion.exJwtD = .error { message :=
      "Cannot access `nodes.function` because the data source does not use a Lambda function." }
    ∧ Ion.nodesPermission Ion.exJwtD = .error { message :=
      "Cannot access `nodes.permission` because the data source does not use a Lambda function." } :=
  Ion.c6_jwt_accessors "Auth" Ion.exJwtArgs Ion.exApi Ion.exEnv
    Ion.exJwtD rfl rfl rfl

/-- C7: validation precedes every provisioning side effect: whenever
`configure` fails, its trace of provisioning requests is empty — no
backing function, no authorizer registration, no permission grant was
requested. -/
theorem Ion.c7_no_effects_on_error (cname : String)
    (args : Ion.AuthorizerArgs) (api : Ion.ApiRef) (env : Ion.ProvisionEnv)
    (e : Ion.VisibleError)
    (h : (Ion.configure cname args api env).2 = .error e) :
    (Ion.configure cname args api env).1 = [] := by
  obtain ⟨name, lambda, jwt⟩ := args
  cases lambda <;> cases jwt <;>
    simp [Ion.configure, Ion.validateSingleAuthorizer, Ion.getType,
      List.count_cons] at h ⊢

/-- C7 witness: the empty trace at a concrete failing (empty-mode)
configuration. -/
theorem Ion.c7_no_effects_on_error_witness :
    (Ion.configure "Auth"
        { name := "MyAuthorizer", lambda := none, jwt := none }
        Ion.exApi Ion.exEnv).1 = [] :=
  Ion.c7_no_effects_on_error "Auth"
    { name := "MyAuthorizer", lambda := none, jwt := none }
    Ion.exApi Ion.exEnv
    { message := "Please provide one of \"lambda\" or \"jwt\" for the "
        ++ "MyAuthorizer" ++ " authorizer." }
    rfl

/-- C8: for every successfully configured lambda-mode component, the
permission grant exists and its source ARN is the owning gateway's
execution ARN followed by "/authorizers/" and the authorizer's id. -/
theorem Ion.c8_permission_scope (cname : String) (args : Ion.AuthorizerArgs)
    (api : Ion.ApiRef) (env : Ion.ProvisionEnv)
    (d : Ion.ApiGatewayV2Authorizer) (f : Ion.FunctionRef)
    (hl : args.lambda = some f)
    (h : (Ion.configure cname args api env).2 = .ok d) :
    ∃ p, d.permission = some p
      ∧ p.sourceArn
          = api.executionArn ++ "/authorizers/" ++ d.authorizer.id
      ∧ d.authorizer.id = env.authorizerId := by
  obtain ⟨name, lambda, jwt⟩ := args
  subst hl
  cases jwt with
  | some j =>
    simp [Ion.configure, Ion.validateSingleAuthorizer, List.count_cons] at h
  | none =>
    simp [Ion.configure, Ion.validateSingleAuthorizer, Ion.getType,
      Ion.createFunction, Ion.createAuthorizer, Ion.createPermission,
      List.count_cons] at h
    subst h
    simp [Ion.createPermission, Ion.createFunction, Ion.createAuthorizer]

/-- C8 witness: the scoped source ARN at the concrete lambda-mode
configuration. -/
theorem Ion.c8_permission_scope_witness :
    ∃ p, Ion.exLambdaD.permission = some p
      ∧ p.sourceArn
          = Ion.exApi.executionArn ++ "/authorizers/"
              ++ Ion.exLambdaD.authorizer.id
      ∧ Ion.exLambdaD.authorizer.id = Ion.exEnv.authorizerId :=
  Ion.c8_permission_scope "Auth" Ion.exLambdaArgs Ion.exApi Ion.exEnv
    Ion.exLambdaD { ref := "index.handler" } rfl rfl

/-- C9: for every successfully configured jwt-mode component, the
registered authorizer's identity-source list is the single-element list
holding the supplied `identitySource`, defaulting to
"$request.header.Authorization" when it was omitted. -/
theorem Ion.c9_identity_source (cname : String) (args : Ion.AuthorizerArgs)
    (api : Ion.ApiRef) (env : Ion.ProvisionEnv)
    (d : Ion.ApiGatewayV2Authorizer) (j : Ion.JwtArgs)
    (hj : args.jwt = some j)
    (h : (Ion.configure cname args api env).2 = .ok d) :
    d.authorizer.identitySources
        = some [j.identitySource.getD "$request.header.Authorization"]
    ∧ (j.identitySource = none →
        d.authorizer.identitySources
          = some ["$request.header.Authorization"])
    ∧ (∀ s, j.identitySource = some s →
        d.authorizer.identitySources = some [s]) := by
  obtain ⟨name, lambda, jwt⟩ := args
  subst hj
  cases lambda with
  | some f =>
    simp [Ion.configure, Ion.validateSingleAuthorizer, List.count_cons] at h
  | none =>
    simp [Ion.configure, Ion.validateSingleAuthorizer, Ion.getType,
      Ion.createFunction, Ion.createAuthorizer, Ion.createPermission,
      List.count_cons] at h
    subst h
    refine ⟨by simp [Ion.createAuthorizer], fun hn => ?_, fun s hs => ?_⟩
    · simp [Ion.createAuthorizer, hn]
    · simp [Ion.createAuthorizer, hs]

/-- C9 witness: the defaulted identity source at the concrete jwt-mode
configuration with `identitySource` omitted. -/
theorem Ion.c9_identity_source_witness :
    Ion.exJwtD.authorizer.identitySources
        = some [(Option.none).getD "$request.header.Authorization"]
    ∧ ((none : Option String) = none →
        Ion.exJwtD.authorizer.identitySources
          = some ["$request.header.Authorization"])
    ∧ (∀ s, (none : Option String) = some s →
        Ion.exJwtD.authorizer.identitySources = some [s]) :=
  Ion.c9_identity_source "Auth" Ion.exJwtArgs Ion.exApi Ion.exEnv
    Ion.exJwtD
    { issuer := "https://issuer", audiences := ["aud"], identitySource := none }
    rfl rfl
